import Mathlib

/-!
Shallow embedding of the task-api repository (Go), covering the parts the
claims speak about: the error values built with `errors.New` / `fmt.Errorf`,
the `models` DTOs, the SQL-backed `taskRepository`, the `taskService`
business logic, and the error-classification branch of the HTTP handler for
GET /api/tasks/{id}.

Conventions of the embedding:
* Go `time.Time` values are modelled as `Int` (an abstract timestamp).
* Go errors are modelled by the inductive `GoError`; `errors.New(msg)` and a
  non-wrapping `fmt.Errorf` both become `GoError.errNew msg` (each message in
  this codebase is produced at a single allocation site, so structural
  equality coincides with Go's pointer identity); `fmt.Errorf("ctx: %w", e)`
  becomes `GoError.wrap "ctx" e`, and `errorsIs` is Go's `errors.Is` chain
  walk.
* Fallible Go functions returning `(T, error)` become `Except GoError T`.
* The service methods additionally return the list of repository calls they
  performed, so that claims of the form "the gateway is never invoked" are
  statable.  In the Go source `repo.Create` / `repo.Update` mutate the task
  in place (they `Scan` the store-assigned id / timestamps into it); here the
  gateway returns those assigned values and the caller rebuilds the record,
  which is observationally the same.
-/

namespace TaskAPI

/-- Go error values as this codebase builds them. -/
inductive GoError where
  | errNew (msg : String)
  | wrap (ctx : String) (inner : GoError)
  deriving DecidableEq, Repr

/-- Rendered error text, as Go's `Error()` produces it: a `%w` wrap formats as
the context, a colon-space, then the inner error's text. -/
def GoError.message : GoError → String
  | .errNew m => m
  | .wrap ctx inner => ctx ++ ": " ++ inner.message

/-- Go's `errors.Is`: the target is the error itself or appears somewhere
down the `%w` unwrap chain. -/
def errorsIs (e target : GoError) : Bool :=
  match e with
  | .errNew m => decide (GoError.errNew m = target)
  | .wrap ctx inner => decide (GoError.wrap ctx inner = target) || errorsIs inner target

/-- The exported sentinel `repository.ErrTaskNotFound = errors.New("task not found")`. -/
def ErrTaskNotFound : GoError := .errNew "task not found"

/-- The driver sentinel `sql.ErrNoRows`. -/
def sqlErrNoRows : GoError := .errNew "sql: no rows in result set"

/-- models.Task. -/
structure Task where
  id : Int
  title : String
  description : String
  status : String
  createdAt : Int
  updatedAt : Int
  deriving DecidableEq, Repr

/-- models.CreateTaskRequest. -/
structure CreateTaskRequest where
  title : String
  description : String
  deriving DecidableEq, Repr

/-- models.UpdateTaskRequest. -/
structure UpdateTaskRequest where
  title : String
  description : String
  status : String
  deriving DecidableEq, Repr

/-- taskRepository.GetByID: `SELECT ... WHERE id = $1` scans the first
matching row; `sql.ErrNoRows` is mapped to the sentinel `ErrTaskNotFound`. -/
def GetByID (db : List Task) (id : Int) : Except GoError Task :=
  match db.find? (fun t => t.id == id) with
  | some t => .ok t
  | none => .error ErrTaskNotFound

/-- taskRepository.GetAll: `SELECT ... ORDER BY created_at DESC`; an empty
table yields the empty list (the Go code starts from `[]*models.Task{}`),
never an error and never a nil result. -/
def createdGe (a b : Task) : Prop := b.createdAt ≤ a.createdAt

instance : DecidableRel createdGe := fun a b => inferInstanceAs (Decidable (b.createdAt ≤ a.createdAt))

instance : IsTotal Task createdGe := ⟨fun a b => le_total b.createdAt a.createdAt⟩

instance : IsTrans Task createdGe := ⟨fun _ _ _ h1 h2 => le_trans h2 h1⟩

def GetAll (db : List Task) : Except GoError (List Task) :=
  .ok (List.insertionSort createdGe db)

/-- taskRepository.Delete: `DELETE FROM tasks WHERE id = $1`; when zero rows
were affected it returns the non-wrapping formatted error
`fmt.Errorf("task with ID %d not found for deletion", id)`.  Returns the
result together with the table after the statement. -/
def Delete (db : List Task) (id : Int) : Except GoError Unit × List Task :=
  let rowsAffected := db.countP (fun t => t.id == id)
  if rowsAffected = 0 then
    (.error (.errNew ("task with ID " ++ toString id ++ " not found for deletion")), db)
  else
    (.ok (), db.filter (fun t => !(t.id == id)))

/-- The store-assigned SERIAL id for the next insert. -/
def nextId (db : List Task) : Int := (db.foldr (fun t m => max t.id m) 0) + 1

/-- The repository interface `repository.TaskRepository` as the service sees
it.  `create` answers with the `RETURNING id, created_at, updated_at` triple
that Go scans back into the task; `update` answers with the
`RETURNING updated_at` value. -/
structure TaskRepository where
  create : Task → Except GoError (Int × Int × Int)
  getByID : Int → Except GoError Task
  getAll : Except GoError (List Task)
  update : Task → Except GoError Int
  delete : Int → Except GoError Unit

/-- One recorded call from the service into the repository. -/
inductive RepoCall where
  | createCall (t : Task)
  | getByIDCall (id : Int)
  | getAllCall
  | updateCall (t : Task)
  | deleteCall (id : Int)
  deriving DecidableEq, Repr

/-- The concrete repository over a snapshot of the table (reads read `db`,
`delete` reports what `Delete` would, `update` errors with `sql.ErrNoRows`
when the row is gone, `create` assigns the next id and `NOW()` for both
timestamps). -/
def dbRepo (db : List Task) (now : Int) : TaskRepository where
  create := fun _ => .ok (nextId db, now, now)
  getByID := fun id => GetByID db id
  getAll := GetAll db
  update := fun t => if db.countP (fun r => r.id == t.id) = 0 then .error sqlErrNoRows else .ok now
  delete := fun id => (Delete db id).1

/-- The task `taskService.CreateTask` constructs before delegating:
the request's title and description, `status = "pending"`, and zero values
for the store-assigned fields. -/
def newTask (req : CreateTaskRequest) : Task :=
  { id := 0, title := req.title, description := req.description,
    status := "pending", createdAt := 0, updatedAt := 0 }

/-- taskService.CreateTask. -/
def CreateTask (repo : TaskRepository) (req : CreateTaskRequest) :
    Except GoError Task × List RepoCall :=
  if req.title = "" then
    (.error (.errNew "title is required"), [])
  else
    let task := newTask req
    match repo.create task with
    | .error e =>
        (.error (.wrap "failed to create task in repository" e), [.createCall task])
    | .ok (i, c, u) =>
        (.ok { task with id := i, createdAt := c, updatedAt := u }, [.createCall task])

/-- taskService.GetTask. -/
def GetTask (repo : TaskRepository) (id : Int) : Except GoError Task × List RepoCall :=
  if id ≤ 0 then
    (.error (.errNew "invalid task ID"), [])
  else
    match repo.getByID id with
    | .error e =>
        (.error (.wrap "failed to get task from repository" e), [.getByIDCall id])
    | .ok t => (.ok t, [.getByIDCall id])

/-- taskService.GetAllTasks. -/
def GetAllTasks (repo : TaskRepository) : Except GoError (List Task) × List RepoCall :=
  match repo.getAll with
  | .error e =>
      (.error (.wrap "failed to get all tasks from repository" e), [.getAllCall])
  | .ok ts => (.ok ts, [.getAllCall])

/-- The field-override step of `taskService.UpdateTask`: each of title,
description and status replaces the fetched value exactly when the request
field is non-empty.  (Go performs these writes in place on the fetched task;
the invalid-status early return discards them unobserved.) -/
def applyUpdates (existingTask : Task) (req : UpdateTaskRequest) : Task :=
  let t1 := if req.title = "" then existingTask else { existingTask with title := req.title }
  let t2 := if req.description = "" then t1 else { t1 with description := req.description }
  if req.status = "" then t2 else { t2 with status := req.status }

/-- taskService.UpdateTask. -/
def UpdateTask (repo : TaskRepository) (id : Int) (req : UpdateTaskRequest) :
    Except GoError Task × List RepoCall :=
  if id ≤ 0 then
    (.error (.errNew "invalid task ID"), [])
  else
    match repo.getByID id with
    | .error e =>
        (.error (.wrap ("task with ID " ++ toString id ++ " not found") e), [.getByIDCall id])
    | .ok existingTask =>
        if req.status ≠ "" ∧ req.status ≠ "pending" ∧ req.status ≠ "in_progress" ∧
            req.status ≠ "completed" then
          (.error (.errNew "invalid status value"), [.getByIDCall id])
        else
          match repo.update (applyUpdates existingTask req) with
          | .error e =>
              (.error (.wrap "failed to update task in repository" e),
               [.getByIDCall id, .updateCall (applyUpdates existingTask req)])
          | .ok u =>
              (.ok { applyUpdates existingTask req with updatedAt := u },
               [.getByIDCall id, .updateCall (applyUpdates existingTask req)])

/-- taskService.DeleteTask. -/
def DeleteTask (repo : TaskRepository) (id : Int) : Except GoError Unit × List RepoCall :=
  if id ≤ 0 then
    (.error (.errNew "invalid task ID"), [])
  else
    match repo.delete id with
    | .error e =>
        (.error (.wrap "failed to delete task from repository" e), [.deleteCall id])
    | .ok _ => (.ok (), [.deleteCall id])

/-- The error-classification branch of `TaskHandler.GetTask` (after a
well-formed id was parsed): a service error whose text equals
`fmt.Sprintf("task with ID %d not found", id)` becomes 404 with that text as
body; every other service error becomes 500 with body
`fmt.Sprintf("failed to retrieve task: %v", err)`; success is 200 (the JSON
body is outside the modelled scope and rendered here as ""). -/
def handlerGetTask (db : List Task) (now : Int) (id : Int) : Nat × String :=
  match (GetTask (dbRepo db now) id).1 with
  | .ok _ => (200, "")
  | .error e =>
      if e.message = "task with ID " ++ toString id ++ " not found" then
        (404, e.message)
      else
        (500, "failed to retrieve task: " ++ e.message)

/-- A repository whose every operation fails with `e`, as the unit tests'
MockTaskRepository is configured in the failure cases. -/
def failingRepo (e : GoError) : TaskRepository where
  create := fun _ => .error e
  getByID := fun _ => .error e
  getAll := .error e
  update := fun _ => .error e
  delete := fun _ => .error e

/-- A concrete stored row used to instantiate the theorems below. -/
def taskOne : Task :=
  { id := 1, title := "Task to Delete", description := "Delete me",
    status := "pending", createdAt := 1, updatedAt := 1 }

/-- Claim C6: a create request whose title is empty fails with the
validation error "title is required" and the repository is never invoked
(the recorded call list is empty). -/
theorem createTask_empty_title (repo : TaskRepository) (req : CreateTaskRequest)
    (h : req.title = "") :
    CreateTask repo req = (.error (.errNew "title is required"), []) := by
  simp [CreateTask, h]

theorem createTask_empty_title_witness :
    ({ title := "", description := "Test Description" } : CreateTaskRequest).title = "" ∧
      CreateTask (dbRepo [] 0) { title := "", description := "Test Description" } =
        (.error (.errNew "title is required"), []) :=
  ⟨rfl, createTask_empty_title (dbRepo [] 0) _ rfl⟩

/-- Claim C7: a create request with a non-empty title hands the gateway a
task with status "pending" carrying the request's title and description and
zeroed store fields, and the returned task takes its id and both timestamps
from the gateway's insert response. -/
theorem createTask_from_gateway (repo : TaskRepository) (req : CreateTaskRequest)
    (i c u : Int) (h : req.title ≠ "") (hcr : repo.create (newTask req) = .ok (i, c, u)) :
    CreateTask repo req =
      (.ok { id := i, title := req.title, description := req.description,
             status := "pending", createdAt := c, updatedAt := u },
       [.createCall (newTask req)]) ∧
    (newTask req).status = "pending" ∧ (newTask req).title = req.title ∧
    (newTask req).description = req.description ∧ (newTask req).id = 0 ∧
    (newTask req).createdAt = 0 ∧ (newTask req).updatedAt = 0 := by
  refine ⟨?_, rfl, rfl, rfl, rfl, rfl, rfl⟩
  simp only [CreateTask, if_neg h]
  rw [hcr]
  simp [newTask]

theorem createTask_from_gateway_witness :
    CreateTask (dbRepo [] 7) { title := "My New Task", description := "This is a test task." } =
      (.ok { id := 1, title := "My New Task", description := "This is a test task.",
             status := "pending", createdAt := 7, updatedAt := 7 },
       [.createCall (newTask { title := "My New Task", description := "This is a test task." })]) :=
  (createTask_from_gateway (dbRepo [] 7)
    { title := "My New Task", description := "This is a test task." } 1 7 7
    (by decide) rfl).1

/-- Claim C8: a non-positive id into get, update or delete is rejected with
the validation error "invalid task ID" and no repository call is recorded. -/
theorem nonpositive_id_rejected (repo : TaskRepository) (id : Int)
    (req : UpdateTaskRequest) (h : id ≤ 0) :
    GetTask repo id = (.error (.errNew "invalid task ID"), []) ∧
    UpdateTask repo id req = (.error (.errNew "invalid task ID"), []) ∧
    DeleteTask repo id = (.error (.errNew "invalid task ID"), []) := by
  refine ⟨?_, ?_, ?_⟩ <;> simp [GetTask, UpdateTask, DeleteTask, h]

theorem nonpositive_id_rejected_witness :
    (0 : Int) ≤ 0 ∧
    GetTask (dbRepo [taskOne] 5) 0 = (.error (.errNew "invalid task ID"), []) ∧
    UpdateTask (dbRepo [taskOne] 5) 0 { title := "", description := "", status := "" } =
      (.error (.errNew "invalid task ID"), []) ∧
    DeleteTask (dbRepo [taskOne] 5) 0 = (.error (.errNew "invalid task ID"), []) :=
  ⟨by decide, nonpositive_id_rejected (dbRepo [taskOne] 5) 0
    { title := "", description := "", status := "" } (by decide)⟩

/-- Claim C10: an update request whose three fields are all empty still
invokes the gateway's update on the unchanged task, and the result's
updated_at is the gateway's refreshed value. -/
theorem updateTask_empty_request_writes (repo : TaskRepository) (id : Int) (t : Task)
    (hid : 0 < id) (hget : repo.getByID id = .ok t) :
    RepoCall.updateCall t ∈ (UpdateTask repo id { title := "", description := "", status := "" }).2 ∧
    (∀ u, repo.update t = .ok u →
      (UpdateTask repo id { title := "", description := "", status := "" }).1 =
        .ok { t with updatedAt := u }) := by
  have h0 : ¬ id ≤ 0 := by omega
  have happ : applyUpdates t { title := "", description := "", status := "" } = t := rfl
  constructor
  · cases hu : repo.update t <;>
      simp [UpdateTask, h0, hget, happ, hu]
  · intro u hu
    simp [UpdateTask, h0, hget, happ, hu]

theorem updateTask_empty_request_writes_witness :
    RepoCall.updateCall taskOne ∈
      (UpdateTask (dbRepo [taskOne] 5) 1 { title := "", description := "", status := "" }).2 ∧
    (UpdateTask (dbRepo [taskOne] 5) 1 { title := "", description := "", status := "" }).1 =
      .ok { taskOne with updatedAt := 5 } :=
  ⟨(updateTask_empty_request_writes (dbRepo [taskOne] 5) 1 taskOne (by decide) rfl).1,
   (updateTask_empty_request_writes (dbRepo [taskOne] 5) 1 taskOne (by decide) rfl).2 5 rfl⟩

/-- Claim C3: on an existing task, update overwrites title, description and
status exactly when the request field is non-empty and keeps the fetched
value otherwise; a non-empty status outside the three-value enumeration
fails with "invalid status value" while the call list shows only the fetch,
so no persistence call occurred; with an acceptable status the gateway is
handed exactly the overridden task. -/
theorem updateTask_field_overrides (repo : TaskRepository) (id : Int)
    (req : UpdateTaskRequest) (t : Task) (hid : 0 < id)
    (hget : repo.getByID id = .ok t) :
    ((req.status ≠ "" ∧ req.status ≠ "pending" ∧ req.status ≠ "in_progress" ∧
        req.status ≠ "completed") →
      UpdateTask repo id req = (.error (.errNew "invalid status value"), [.getByIDCall id])) ∧
    (applyUpdates t req).title = (if req.title = "" then t.title else req.title) ∧
    (applyUpdates t req).description =
      (if req.description = "" then t.description else req.description) ∧
    (applyUpdates t req).status = (if req.status = "" then t.status else req.status) ∧
    (applyUpdates t req).id = t.id ∧
    (applyUpdates t req).createdAt = t.createdAt ∧
    (∀ u, (req.status = "" ∨ req.status = "pending" ∨ req.status = "in_progress" ∨
        req.status = "completed") →
      repo.update (applyUpdates t req) = .ok u →
      (UpdateTask repo id req).1 = .ok { applyUpdates t req with updatedAt := u }) := by
  have h0 : ¬ id ≤ 0 := by omega
  refine ⟨?_, ?_, ?_, ?_, ?_, ?_, ?_⟩
  · intro hbad
    simp only [UpdateTask, if_neg h0, hget]
    rw [if_pos hbad]
  · simp only [applyUpdates]; split_ifs <;> rfl
  · simp only [applyUpdates]; split_ifs <;> rfl
  · simp only [applyUpdates]; split_ifs <;> rfl
  · simp only [applyUpdates]; split_ifs <;> rfl
  · simp only [applyUpdates]; split_ifs <;> rfl
  · intro u hok hu
    have hcond : ¬ (req.status ≠ "" ∧ req.status ≠ "pending" ∧ req.status ≠ "in_progress" ∧
        req.status ≠ "completed") := by
      rcases hok with h | h | h | h <;> simp [h]
    simp only [UpdateTask, if_neg h0, hget]
    rw [if_neg hcond, hu]

theorem updateTask_field_overrides_witness :
    0 < (1 : Int) ∧ (dbRepo [taskOne] 5).getByID 1 = .ok taskOne ∧
    UpdateTask (dbRepo [taskOne] 5) 1 { title := "", description := "", status := "bogus" } =
      (.error (.errNew "invalid status value"), [.getByIDCall 1]) :=
  ⟨by decide, rfl,
    (updateTask_field_overrides (dbRepo [taskOne] 5) 1
      { title := "", description := "", status := "bogus" } taskOne (by decide) rfl).1
      (by refine ⟨?_, ?_, ?_, ?_⟩ <;> decide)⟩

/-- Claim C4: an update whose positive id matches no stored row fails with
the wrap of the not-found sentinel (so `errors.Is` still identifies
`ErrTaskNotFound`), and the recorded calls show only the fetch — the
gateway's update is never invoked and no partial update is applied. -/
theorem updateTask_missing_id (db : List Task) (now id : Int)
    (req : UpdateTaskRequest) (hid : 0 < id)
    (hnone : db.find? (fun t => t.id == id) = none) :
    UpdateTask (dbRepo db now) id req =
      (.error (.wrap ("task with ID " ++ toString id ++ " not found") ErrTaskNotFound),
       [.getByIDCall id]) ∧
    errorsIs (.wrap ("task with ID " ++ toString id ++ " not found") ErrTaskNotFound)
      ErrTaskNotFound = true ∧
    (∀ t, RepoCall.updateCall t ∉ (UpdateTask (dbRepo db now) id req).2) := by
  have h0 : ¬ id ≤ 0 := by omega
  have hget : (dbRepo db now).getByID id = .error ErrTaskNotFound := by
    simp [dbRepo, GetByID, hnone]
  have hmain : UpdateTask (dbRepo db now) id req =
      (.error (.wrap ("task with ID " ++ toString id ++ " not found") ErrTaskNotFound),
       [.getByIDCall id]) := by
    simp only [UpdateTask, if_neg h0, hget]
  refine ⟨hmain, by simp [errorsIs, ErrTaskNotFound], ?_⟩
  intro t
  rw [hmain]
  simp

theorem updateTask_missing_id_witness :
    UpdateTask (dbRepo [] 0) 99 { title := "New Title", description := "", status := "" } =
      (.error (.wrap ("task with ID " ++ toString (99 : Int) ++ " not found") ErrTaskNotFound),
       [.getByIDCall 99]) :=
  (updateTask_missing_id [] 0 99 { title := "New Title", description := "", status := "" }
    (by decide) rfl).1

/-- Claim C5: whenever the gateway reports an error to a service operation,
the service returns an error that wraps the gateway's error under a context
message, and `errors.Is` still recognises the original cause through the
wrapper. -/
theorem service_wraps_gateway_errors (repo : TaskRepository) (e : GoError)
    (req : CreateTaskRequest) (id : Int) (t : Task) (ureq : UpdateTaskRequest) :
    (req.title ≠ "" → repo.create (newTask req) = .error e →
      (CreateTask repo req).1 = .error (.wrap "failed to create task in repository" e)) ∧
    (0 < id → repo.getByID id = .error e →
      (GetTask repo id).1 = .error (.wrap "failed to get task from repository" e)) ∧
    (repo.getAll = .error e →
      (GetAllTasks repo).1 = .error (.wrap "failed to get all tasks from repository" e)) ∧
    (0 < id → repo.getByID id = .error e →
      (UpdateTask repo id ureq).1 =
        .error (.wrap ("task with ID " ++ toString id ++ " not found") e)) ∧
    (0 < id → repo.getByID id = .ok t →
      (ureq.status = "" ∨ ureq.status = "pending" ∨ ureq.status = "in_progress" ∨
        ureq.status = "completed") →
      repo.update (applyUpdates t ureq) = .error e →
      (UpdateTask repo id ureq).1 = .error (.wrap "failed to update task in repository" e)) ∧
    (0 < id → repo.delete id = .error e →
      (DeleteTask repo id).1 = .error (.wrap "failed to delete task from repository" e)) ∧
    (∀ ctx : String, errorsIs (.wrap ctx e) e = true) := by
  refine ⟨?_, ?_, ?_, ?_, ?_, ?_, ?_⟩
  · intro h hcr
    simp only [CreateTask, if_neg h]
    rw [hcr]
  · intro hid hget
    have h0 : ¬ id ≤ 0 := by omega
    simp [GetTask, if_neg h0, hget]
  · intro hget
    simp [GetAllTasks, hget]
  · intro hid hget
    have h0 : ¬ id ≤ 0 := by omega
    simp only [UpdateTask, if_neg h0, hget]
  · intro hid hget hok hu
    have h0 : ¬ id ≤ 0 := by omega
    have hcond : ¬ (ureq.status ≠ "" ∧ ureq.status ≠ "pending" ∧ ureq.status ≠ "in_progress" ∧
        ureq.status ≠ "completed") := by
      rcases hok with h | h | h | h <;> simp [h]
    simp only [UpdateTask, if_neg h0, hget]
    rw [if_neg hcond, hu]
  · intro hid hdel
    have h0 : ¬ id ≤ 0 := by omega
    simp [DeleteTask, if_neg h0, hdel]
  · intro ctx
    cases e <;> simp [errorsIs]

theorem service_wraps_gateway_errors_witness :
    (GetTask (failingRepo (.errNew "database connection failed")) 1).1 =
      .error (.wrap "failed to get task from repository"
        (.errNew "database connection failed")) ∧
    (DeleteTask (failingRepo (.errNew "database connection failed")) 1).1 =
      .error (.wrap "failed to delete task from repository"
        (.errNew "database connection failed")) ∧
    errorsIs
      (.wrap "failed to get task from repository" (.errNew "database connection failed"))
      (.errNew "database connection failed") = true :=
  ⟨(service_wraps_gateway_errors (failingRepo (.errNew "database connection failed"))
      (.errNew "database connection failed") { title := "t", description := "" } 1 taskOne
      { title := "", description := "", status := "" }).2.1 (by decide) rfl,
   (service_wraps_gateway_errors (failingRepo (.errNew "database connection failed"))
      (.errNew "database connection failed") { title := "t", description := "" } 1 taskOne
      { title := "", description := "", status := "" }).2.2.2.2.2.1 (by decide) rfl,
   (service_wraps_gateway_errors (failingRepo (.errNew "database connection failed"))
      (.errNew "database connection failed") { title := "t", description := "" } 1 taskOne
      { title := "", description := "", status := "" }).2.2.2.2.2.2
      "failed to get task from repository"⟩

/-- Claim C9: get-all returns the stored rows ordered by created_at
descending (a permutation of the table, sorted newest first), and an empty
table yields the `.ok []` outcome, not an error. -/
theorem getAllTasks_sorted_newest_first (db : List Task) (now : Int) :
    (∃ l, (GetAllTasks (dbRepo db now)).1 = .ok l ∧ l.Sorted createdGe ∧ l.Perm db) ∧
    (db = [] → (GetAllTasks (dbRepo db now)).1 = .ok []) := by
  constructor
  · exact ⟨List.insertionSort createdGe db, by simp [GetAllTasks, dbRepo, GetAll],
      List.sorted_insertionSort createdGe db, List.perm_insertionSort createdGe db⟩
  · intro h
    subst h
    rfl

theorem getAllTasks_sorted_newest_first_witness :
    (∃ l, (GetAllTasks (dbRepo ([] : List Task) 5)).1 = .ok l ∧ l.Sorted createdGe ∧
      l.Perm ([] : List Task)) ∧
    (GetAllTasks (dbRepo ([] : List Task) 5)).1 = .ok [] :=
  ⟨(getAllTasks_sorted_newest_first [] 5).1, (getAllTasks_sorted_newest_first [] 5).2 rfl⟩

/-- The message `taskRepository.Delete` formats for a zero-row deletion can
never equal the text of the sentinel `ErrTaskNotFound`, whatever the id. -/
theorem delete_msg_ne_sentinel_msg (id : Int) :
    ("task with ID " ++ toString id ++ " not found for deletion") ≠ "task not found" := by
  intro h
  have hlen := congrArg String.length h
  have h1 : ("task with ID " : String).length = 13 := rfl
  have h2 : (" not found for deletion" : String).length = 23 := rfl
  have h3 : ("task not found" : String).length = 14 := rfl
  rw [String.length_append, String.length_append, h1, h2, h3] at hlen
  omega

/-- Claim C1 (amended): for a positive id matching no stored row, get-by-id
and update signal not-found through the sentinel `ErrTaskNotFound` kept
inspectable under the service's wrapping, while delete yields an error — so
deleting an already-deleted id is neither a crash nor a silent success — but
that error only carries the formatted text "task with ID %d not found for
deletion" and is not identified with the sentinel by `errors.Is`. -/
theorem notFound_signal_by_operation (db : List Task) (now id : Int)
    (req : UpdateTaskRequest) (hid : 0 < id)
    (hnone : db.find? (fun t => t.id == id) = none) :
    (GetTask (dbRepo db now) id).1 =
      .error (.wrap "failed to get task from repository" ErrTaskNotFound) ∧
    errorsIs (.wrap "failed to get task from repository" ErrTaskNotFound)
      ErrTaskNotFound = true ∧
    (UpdateTask (dbRepo db now) id req).1 =
      .error (.wrap ("task with ID " ++ toString id ++ " not found") ErrTaskNotFound) ∧
    (DeleteTask (dbRepo db now) id).1 =
      .error (.wrap "failed to delete task from repository"
        (.errNew ("task with ID " ++ toString id ++ " not found for deletion"))) ∧
    errorsIs
      (.wrap "failed to delete task from repository"
        (.errNew ("task with ID " ++ toString id ++ " not found for deletion")))
      ErrTaskNotFound = false := by
  have h0 : ¬ id ≤ 0 := by omega
  have hget : (dbRepo db now).getByID id = .error ErrTaskNotFound := by
    simp [dbRepo, GetByID, hnone]
  have hall : ∀ t ∈ db, ¬ t.id = id := fun t ht => by
    simpa using List.find?_eq_none.mp hnone t ht
  have hdel : (dbRepo db now).delete id =
      .error (.errNew ("task with ID " ++ toString id ++ " not found for deletion")) := by
    have hcount : List.countP (fun t => t.id == id) db = 0 := by
      rw [List.countP_eq_zero]
      intro t ht
      simpa using hall t ht
    simp only [dbRepo, Delete]
    rw [if_pos hcount]
  refine ⟨?_, by simp [errorsIs, ErrTaskNotFound], ?_, ?_, ?_⟩
  · simp [GetTask, if_neg h0, hget]
  · simp only [UpdateTask, if_neg h0, hget]
  · simp [DeleteTask, if_neg h0, hdel]
  · simp [errorsIs, ErrTaskNotFound, delete_msg_ne_sentinel_msg id]

theorem notFound_signal_by_operation_witness :
    (GetTask (dbRepo [] 0) 3).1 =
      .error (.wrap "failed to get task from repository" ErrTaskNotFound) ∧
    (DeleteTask (dbRepo [] 0) 3).1 =
      .error (.wrap "failed to delete task from repository"
        (.errNew ("task with ID " ++ toString (3 : Int) ++ " not found for deletion"))) :=
  ⟨(notFound_signal_by_operation [] 0 3 { title := "", description := "", status := "" }
      (by decide) rfl).1,
   (notFound_signal_by_operation [] 0 3 { title := "", description := "", status := "" }
      (by decide) rfl).2.2.2.1⟩

/-- Claim C1 fails as stated: after a successful delete of id 1, deleting
id 1 again yields an error built from a formatted string, and `errors.Is`
does not identify it with the not-found sentinel — the delete path has no
tagged not-found value. -/
theorem delete_already_deleted_not_sentinel :
    (Delete [taskOne] 1).1 = .ok () ∧
    (DeleteTask (dbRepo (Delete [taskOne] 1).2 2) 1).1 =
      .error (.wrap "failed to delete task from repository"
        (.errNew "task with ID 1 not found for deletion")) ∧
    errorsIs
      (.wrap "failed to delete task from repository"
        (.errNew "task with ID 1 not found for deletion")) ErrTaskNotFound = false :=
  ⟨rfl, rfl, rfl⟩

/-- Claim C2: the service-level not-found distinction holds (the wrap keeps
`ErrTaskNotFound` inspectable), but at the failing input GET id 999 on an
empty store the handler's string comparison misses — the service error text
is "failed to get task from repository: task not found", never the compared
"task with ID 999 not found" — so the handler answers 500, not 404. -/
theorem getTask_handler_maps_missing_to_500 :
    handlerGetTask [] 0 999 =
      (500, "failed to retrieve task: failed to get task from repository: task not found") ∧
    (GetTask (dbRepo [] 0) 999).1 =
      .error (.wrap "failed to get task from repository" ErrTaskNotFound) ∧
    errorsIs (.wrap "failed to get task from repository" ErrTaskNotFound)
      ErrTaskNotFound = true :=
  ⟨rfl, rfl, rfl⟩

end TaskAPI
